import Mathlib

/-!
Verification of the go-vee smart-light gateway (EternityX/go-vee) against its
natural-language specification.  The Go sources are shallowly embedded:

* `clampValue`, `TurnOn`, `TurnOff`, `SetBrightness`, `SetColor` embed the
  message-building part of the LAN control helpers (the UDP send itself is
  abstracted away; each helper is modelled by the control request it encodes).
* `discoverLoop` / `DiscoverDevices` embed the receive loop of
  `lan.DiscoverDevices`.  Time is modelled by natural numbers: the scan starts
  at instant 0, the deadline is `timeout`, and each read outcome carries the
  instant at which the read returned.  An exhausted event list stands for a
  read that blocks until the deadline and then fails with a timeout error.
* `lanAttemptErr`, `lanControlLoop`, `ControlDevice` embed the LAN branch of
  `GoveeService.ControlDevice` (govee.go).  The network is a parameter
  `lanSend : String -> LanRequest -> Option String` giving the error (if any)
  returned by sending a given request to a given device IP; `none` models a
  nil error, exactly as `err` is used in the Go code.
* `HandleControl` embeds the validation part of `GoveeHandler.HandleControl`
  (govee_handler.go): its result says either which error response is written
  or that the service (and hence the network) is invoked.
-/

namespace GoVee

/-- Embeds `clampValue(value, min, max int) int` from the lan package.
Go `int` arithmetic is pure comparison here, so `Int` is a faithful model. -/
def clampValue (value lo hi : Int) : Int :=
  if value < lo then lo
  else if value > hi then hi
  else value

/-- The `data` payload of a LAN control request, as encoded by the Go helpers:
either a single integer `value`, or the `colorwc` payload
`color.r / color.g / color.b / colorTemInKelvin`. -/
inductive LanData where
  | intValue (value : Int)
  | colorwc (r g b colorTemInKelvin : Int)
  deriving DecidableEq, Repr

/-- A LAN control request: the `cmd` string and the `data` payload handed to
`lan.ControlDevice`. -/
structure LanRequest where
  cmd : String
  data : LanData
  deriving DecidableEq, Repr

/-- Embeds `lan.TurnOn`: `cmd="turn"`, value 1. -/
def TurnOn : LanRequest :=
  { cmd := "turn", data := LanData.intValue 1 }

/-- Embeds `lan.TurnOff`: `cmd="turn"`, value 0. -/
def TurnOff : LanRequest :=
  { cmd := "turn", data := LanData.intValue 0 }

/-- Embeds `lan.SetBrightness`: clamp to [1,100], then `cmd="brightness"`. -/
def SetBrightness (brightness : Int) : LanRequest :=
  { cmd := "brightness", data := LanData.intValue (clampValue brightness 1 100) }

/-- Embeds `lan.SetColor`: clamp each channel to [0,255], then `cmd="colorwc"`
with `colorTemInKelvin` fixed at 0. -/
def SetColor (r g b : Int) : LanRequest :=
  { cmd := "colorwc",
    data := LanData.colorwc (clampValue r 0 255) (clampValue g 0 255)
      (clampValue b 0 255) 0 }

/-- The decoded payload of a LAN scan response (`lan.ScanResponse.Msg.Data`). -/
structure ScanResponse where
  ip : String
  device : String
  sku : String
  bleVersionHard : String
  bleVersionSoft : String
  wifiVersionHard : String
  wifiVersionSoft : String
  deriving DecidableEq, Repr

/-- One outcome of `server.ReadFromUDP` in the discovery loop:
a datagram (`packet`, with `none` when `json.Unmarshal` fails on it), or a
read error (`fail`, tagged with whether it is a net timeout error). -/
inductive RecvEvent where
  | packet (decoded : Option ScanResponse)
  | fail (isTimeout : Bool)
  deriving DecidableEq, Repr

/-- Embeds the receive loop of `lan.DiscoverDevices` (discovery.go lines
91-109).  `deadline` is the scan deadline, `now` the current instant, and the
list pairs each read outcome with the instant at which the read returned.
Following the source: the loop runs only while `now < deadline`; a read that
would complete at or after the deadline instead hits the read deadline and
times out (`[]`, returning what was collected); a timeout error breaks the
loop; any other read error is logged and skipped; a malformed datagram is
logged and skipped; a well-formed datagram is appended. -/
def discoverLoop (deadline : Nat) : Nat → List (Nat × RecvEvent) → List ScanResponse
  | _, [] => []
  | now, (t, ev) :: rest =>
    if now < deadline then
      if deadline ≤ t then
        []
      else
        match ev with
        | RecvEvent.fail true => []
        | RecvEvent.fail false => discoverLoop deadline t rest
        | RecvEvent.packet none => discoverLoop deadline t rest
        | RecvEvent.packet (some resp) => resp :: discoverLoop deadline t rest
    else []

/-- Embeds `lan.DiscoverDevices(timeout)`.  `setupError` models a failure of
the pre-scan steps (resolve, listen, marshal, send), each of which returns the
error before the loop; with the setup succeeding, the function runs the
receive loop from instant 0 with deadline `timeout` and returns the collected
responses with a nil error. -/
def DiscoverDevices (setupError : Option String) (timeout : Nat)
    (events : List (Nat × RecvEvent)) : Except String (List ScanResponse) :=
  match setupError with
  | some e => Except.error e
  | none => Except.ok (discoverLoop timeout 0 events)

/-- A JSON-decoded dynamic value, as carried by `ControlCapability.Value`
(`interface\x7b\x7d` in Go; a JSON number decodes to float64 and the claims
concern the integral, uint32-representable ones, modelled as `Nat`). -/
inductive JsonValue where
  | num (n : Nat)
  | str (s : String)
  | boolean (b : Bool)
  | null
  | composite
  deriving DecidableEq, Repr

/-- Embeds `service.ControlCapability` (fields `Type`, `Instance`, `Value`). -/
structure ControlCapability where
  capType : String
  capInstance : String
  value : JsonValue
  deriving DecidableEq, Repr

/-- The packed-color decomposition of the `color_setting` branch of
`GoveeService.ControlDevice` (govee.go lines 428-433): the value is converted
to uint32 (exact for values below 2^32, modelled as reduction mod 2^32) and
split into `r = (v>>16)&0xFF`, `g = (v>>8)&0xFF`, `b = v&0xFF`. -/
def packedColor (v : Nat) : Nat × Nat × Nat :=
  (((v % 4294967296) >>> 16) &&& 255,
   ((v % 4294967296) >>> 8) &&& 255,
   (v % 4294967296) &&& 255)

/-- The value of `err` after the `switch capability.Type` in
`GoveeService.ControlDevice` (govee.go lines 412-435), for one matched device
with address `ip`.  Note that `err` is declared nil and is only assigned by
the three translated cases, each guarded by a float64 type assertion: any
other capability type, and any non-numeric value, leaves `err = nil`. -/
def lanAttemptErr (lanSend : String → LanRequest → Option String)
    (capability : ControlCapability) (ip : String) : Option String :=
  if capability.capType = "devices.capabilities.on_off" then
    match capability.value with
    | JsonValue.num v => if v = 1 then lanSend ip TurnOn else lanSend ip TurnOff
    | _ => none
  else if capability.capType = "devices.capabilities.range" then
    match capability.value with
    | JsonValue.num v => lanSend ip (SetBrightness (Int.ofNat v))
    | _ => none
  else if capability.capType = "devices.capabilities.color_setting" then
    match capability.value with
    | JsonValue.num v =>
      lanSend ip (SetColor (Int.ofNat (packedColor v).1)
        (Int.ofNat (packedColor v).2.1) (Int.ofNat (packedColor v).2.2))
    | _ => none
  else none

/-- Embeds the `for _, device := range devices` loop of
`GoveeService.ControlDevice` (govee.go lines 409-443): `true` means the loop
returned nil (LAN success reported, no cloud call); `false` means the loop
fell through to the cloud path.  On a matching entry, `err == nil` returns
immediately; otherwise the failure is logged and the loop continues with the
remaining entries. -/
def lanControlLoop (lanSend : String → LanRequest → Option String)
    (deviceID : String) (capability : ControlCapability) :
    List ScanResponse → Bool
  | [] => false
  | d :: rest =>
    if d.device = deviceID then
      match lanAttemptErr lanSend capability d.ip with
      | none => true
      | some _ => lanControlLoop lanSend deviceID capability rest
    else
      lanControlLoop lanSend deviceID capability rest

/-- The observable outcome of the LAN phase of `GoveeService.ControlDevice`:
either the method returns nil from inside the LAN loop (no cloud call), or
control reaches the cloud path and the cloud request is issued. -/
inductive GatewayAction where
  | lanSuccess
  | cloudCall
  deriving DecidableEq, Repr

/-- Embeds the control-flow skeleton of `GoveeService.ControlDevice`
(govee.go lines 404-450): with LAN enabled, run discovery; on discovery error
log and fall through to the cloud; otherwise run the device loop and return
LAN success when it does, falling through to the cloud when it does not. -/
def ControlDevice (useLAN : Bool) (discovered : Except String (List ScanResponse))
    (lanSend : String → LanRequest → Option String)
    (deviceID : String) (capability : ControlCapability) : GatewayAction :=
  if useLAN then
    match discovered with
    | Except.ok devices =>
      if lanControlLoop lanSend deviceID capability devices then
        GatewayAction.lanSuccess
      else
        GatewayAction.cloudCall
    | Except.error _ => GatewayAction.cloudCall
  else
    GatewayAction.cloudCall

/-- The result of reading and JSON-decoding the control request body in
`GoveeHandler.HandleControl`: a read failure, a decode failure, or the parsed
`sku` / `device` / `capability` fields. -/
inductive BodyResult where
  | readError
  | parseError
  | parsed (sku device : String) (capability : ControlCapability)
  deriving DecidableEq, Repr

/-- What `GoveeHandler.HandleControl` does with a request: write an error
response (status code, error, description) and return, or call
`service.ControlDevice` - the only path on which any network I/O happens. -/
inductive HandlerAction where
  | respondError (code : Nat) (message description : String)
  | callService (sku device : String) (capability : ControlCapability)
  deriving DecidableEq, Repr

/-- Embeds the validation prefix of `GoveeHandler.HandleControl`
(govee_handler.go lines 90-129): method check, body read, JSON decode,
required-field checks for `sku`/`device` and for `capability.type` /
`capability.instance`, in source order; only a request passing every check
reaches the service call. -/
def HandleControl (method : String) (body : BodyResult) : HandlerAction :=
  if method ≠ "POST" then
    HandlerAction.respondError 405 "Method not allowed"
      "Only POST method is allowed for this endpoint"
  else
    match body with
    | BodyResult.readError =>
      HandlerAction.respondError 400 "Bad request" "Failed to read request body"
    | BodyResult.parseError =>
      HandlerAction.respondError 400 "Bad request" "Invalid request body format"
    | BodyResult.parsed sku device capability =>
      if sku = "" ∨ device = "" then
        HandlerAction.respondError 400 "Bad request"
          "Missing required fields: sku and device"
      else if capability.capType = "" ∨ capability.capInstance = "" then
        HandlerAction.respondError 400 "Bad request"
          "Missing required capability fields: type and instance"
      else
        HandlerAction.callService sku device capability

/-- A sample well-formed scan response, used as concrete input. -/
def sampleDevice : ScanResponse :=
  { ip := "192.168.1.23", device := "14:29:A1:C2:7D:01", sku := "H6159",
    bleVersionHard := "3.01.01", bleVersionSoft := "1.03.01",
    wifiVersionHard := "1.00.10", wifiVersionSoft := "1.02.11" }

/-- A scan response for a device that also answers as `deviceTwin`. -/
def deviceFirst : ScanResponse :=
  { ip := "192.168.1.41", device := "AA:BB:CC:DD:EE:FF", sku := "H6159",
    bleVersionHard := "3.01.01", bleVersionSoft := "1.03.01",
    wifiVersionHard := "1.00.10", wifiVersionSoft := "1.02.11" }

/-- A second scan response carrying the same device id as `deviceFirst`. -/
def deviceTwin : ScanResponse :=
  { ip := "192.168.1.42", device := "AA:BB:CC:DD:EE:FF", sku := "H6159",
    bleVersionHard := "3.01.01", bleVersionSoft := "1.03.01",
    wifiVersionHard := "1.00.10", wifiVersionSoft := "1.02.11" }

/-- A LAN environment in which sending to 192.168.1.41 fails and any other
send succeeds. -/
def lanSendFirstFails : String → LanRequest → Option String :=
  fun ip _ => if ip = "192.168.1.41" then some "device did not respond" else none

/-- A LAN environment in which every send fails. -/
def lanSendAlwaysFails : String → LanRequest → Option String :=
  fun _ _ => some "send failed"

/-- An on_off capability with numeric value 1. -/
def onOffCapability : ControlCapability :=
  { capType := "devices.capabilities.on_off", capInstance := "powerSwitch",
    value := JsonValue.num 1 }

/-- A capability type with no LAN translation (a mode change). -/
def modeCapability : ControlCapability :=
  { capType := "devices.capabilities.mode", capInstance := "workMode",
    value := JsonValue.num 3 }

/-- An on_off capability whose value is a string, not a number. -/
def onOffStringCapability : ControlCapability :=
  { capType := "devices.capabilities.on_off", capInstance := "powerSwitch",
    value := JsonValue.str "on" }

/-- A control capability with an empty `type` field. -/
def emptyTypeCapability : ControlCapability :=
  { capType := "", capInstance := "powerSwitch", value := JsonValue.num 1 }

/-! ## Helper lemmas about the discovery loop -/

/-- Once the current instant has reached the deadline, the loop body is never
entered and nothing more is collected. -/
theorem discoverLoop_of_not_lt (d now : Nat) (l : List (Nat × RecvEvent))
    (h : ¬ now < d) : discoverLoop d now l = [] := by
  cases l with
  | nil => rfl
  | cons p rest =>
    obtain ⟨t, ev⟩ := p
    simp [discoverLoop, h]

/-- While the deadline has not passed, the loop result does not depend on the
exact current instant. -/
theorem discoverLoop_congr_now (d a b : Nat) (l : List (Nat × RecvEvent))
    (ha : a < d) (hb : b < d) : discoverLoop d a l = discoverLoop d b l := by
  cases l with
  | nil => rfl
  | cons p rest =>
    obtain ⟨t, ev⟩ := p
    simp [discoverLoop, ha, hb]

/-- A skippable read outcome (a non-timeout read error, or a malformed
datagram) that arrives before the deadline leaves the collected sequence
exactly as if it had never happened. -/
theorem discoverLoop_skip (d t : Nat) (ev : RecvEvent)
    (hev : ev = RecvEvent.fail false ∨ ev = RecvEvent.packet none)
    (ht : t < d) :
    ∀ (xs : List (Nat × RecvEvent)) (now : Nat) (ys : List (Nat × RecvEvent)),
      discoverLoop d now (xs ++ (t, ev) :: ys) = discoverLoop d now (xs ++ ys) := by
  intro xs
  induction xs with
  | nil =>
    intro now ys
    by_cases hnow : now < d
    · have hdt : ¬ d ≤ t := by omega
      rcases hev with h | h <;> subst h <;>
        simp [discoverLoop, hnow, hdt, discoverLoop_congr_now d t now ys ht hnow]
    · rw [List.nil_append, List.nil_append, discoverLoop_of_not_lt d now _ hnow,
        discoverLoop_of_not_lt d now _ hnow]
  | cons p xs ih =>
    obtain ⟨u, e⟩ := p
    intro now ys
    by_cases hnow : now < d
    · by_cases hu : d ≤ u
      · simp [discoverLoop, hnow, hu]
      · cases e with
        | fail b => cases b <;> simp [discoverLoop, hnow, hu, ih]
        | packet o => cases o <;> simp [discoverLoop, hnow, hu, ih]
    · rw [List.cons_append, List.cons_append, discoverLoop_of_not_lt d now _ hnow,
        discoverLoop_of_not_lt d now _ hnow]

/-! ## Helper lemmas about the gateway loop -/

/-- The device loop falls through to the cloud exactly when the LAN attempt of
every entry matching the requested device id fails. -/
theorem lanControlLoop_eq_false_iff (lanSend : String → LanRequest → Option String)
    (deviceID : String) (capability : ControlCapability)
    (devices : List ScanResponse) :
    lanControlLoop lanSend deviceID capability devices = false ↔
      ∀ d ∈ devices, d.device = deviceID →
        lanAttemptErr lanSend capability d.ip ≠ none := by
  induction devices with
  | nil => simp [lanControlLoop]
  | cons d rest ih =>
    by_cases hd : d.device = deviceID
    · cases hatt : lanAttemptErr lanSend capability d.ip with
      | none => simp [lanControlLoop, hd, hatt]
      | some e => simp [lanControlLoop, hd, hatt, ih]
    · simp [lanControlLoop, hd, ih]

/-! ## C1 - discovery behaviour on a non-timeout read error -/

/-- Claim C1, counterexample.  At a concrete input where the first read fails
with a non-timeout I/O error at instant 1 and a valid datagram arrives at
instant 2 (both before the deadline 5), `DiscoverDevices` returns the decoded
datagram with a nil error: the error neither aborts the discovery nor is
returned, and the collected responses are kept, contrary to the claim. -/
theorem discovery_read_error_aborts_cex :
    DiscoverDevices none 5
      [(1, RecvEvent.fail false), (2, RecvEvent.packet (some sampleDevice))]
      = Except.ok [sampleDevice] := rfl

/-- Claim C1, amended: a non-timeout read error before the deadline is logged
and skipped; the discovery continues, still returns a nil error, and the
result is exactly that of the same read sequence without the failed read (so
responses collected before and after the error are all returned). -/
theorem discovery_read_error_skipped (timeout t : Nat)
    (xs ys : List (Nat × RecvEvent)) (ht : t < timeout) :
    DiscoverDevices none timeout (xs ++ (t, RecvEvent.fail false) :: ys)
      = DiscoverDevices none timeout (xs ++ ys) := by
  simp only [DiscoverDevices]
  rw [discoverLoop_skip timeout t _ (Or.inl rfl) ht xs 0 ys]

/-- Claim C1, witness for the amended theorem at a concrete input. -/
theorem discovery_read_error_skipped_witness :
    DiscoverDevices none 5
        [(1, RecvEvent.fail false), (2, RecvEvent.packet (some sampleDevice))]
      = DiscoverDevices none 5 [(2, RecvEvent.packet (some sampleDevice))] :=
  discovery_read_error_skipped 5 1 [] [(2, RecvEvent.packet (some sampleDevice))]
    (by decide)

/-! ## C2 - unsupported capability types on the LAN path -/

/-- Claim C2, evaluation at the failing inputs.  With LAN enabled and a
discovered device matching the requested id, a capability of type
`devices.capabilities.mode` (no LAN translation) and an on_off capability
with a string value both make `ControlDevice` report LAN success and return
without any cloud call - even in an environment where every LAN send would
fail, showing no LAN command was sent either.  The spec (and the code against
its own log message) requires cloud fallback here. -/
theorem unsupported_capability_reports_lan_success :
    ControlDevice true (Except.ok [deviceFirst]) lanSendAlwaysFails
        "AA:BB:CC:DD:EE:FF" modeCapability = GatewayAction.lanSuccess
    ∧ ControlDevice true (Except.ok [deviceFirst]) lanSendAlwaysFails
        "AA:BB:CC:DD:EE:FF" onOffStringCapability = GatewayAction.lanSuccess := by
  constructor <;> rfl

/-! ## C3 - which matching entries get a LAN attempt -/

/-- Claim C3, counterexample.  Two discovered entries carry the requested
device id; sending to the first entry (192.168.1.41) fails while sending to
the second succeeds.  `ControlDevice` reports LAN success, so the second
matching entry was attempted after the first failed, and no cloud fallback
happened - contrary to the claim.  With only the first entry discovered, the
same call does fall back to the cloud, confirming the first attempt fails. -/
theorem later_matching_entry_attempted_cex :
    ControlDevice true (Except.ok [deviceFirst, deviceTwin]) lanSendFirstFails
        "AA:BB:CC:DD:EE:FF" onOffCapability = GatewayAction.lanSuccess
    ∧ ControlDevice true (Except.ok [deviceFirst]) lanSendFirstFails
        "AA:BB:CC:DD:EE:FF" onOffCapability = GatewayAction.cloudCall := by
  constructor <;> rfl

/-- Claim C3, amended: matching entries are tried in receive order until one
LAN attempt succeeds (which returns success with no cloud call); the gateway
falls back to the cloud exactly when the LAN attempt fails on every matching
entry, not after the first failure alone. -/
theorem control_falls_back_iff_every_match_fails
    (lanSend : String → LanRequest → Option String) (deviceID : String)
    (capability : ControlCapability) (devices : List ScanResponse) :
    ControlDevice true (Except.ok devices) lanSend deviceID capability
        = GatewayAction.cloudCall ↔
      ∀ d ∈ devices, d.device = deviceID →
        lanAttemptErr lanSend capability d.ip ≠ none := by
  rw [← lanControlLoop_eq_false_iff lanSend deviceID capability devices]
  simp only [ControlDevice, if_true]
  cases hb : lanControlLoop lanSend deviceID capability devices <;> simp [hb]

/-! ## C4 - handler validation of capability fields -/

/-- Claim C4: a POST control request whose parsed body lacks
`capability.type` or `capability.instance` is answered with a 400 error
response, and the service (hence LAN discovery and the cloud client) is never
invoked. -/
theorem missing_capability_rejected_400 (sku device : String)
    (capability : ControlCapability)
    (h : capability.capType = "" ∨ capability.capInstance = "") :
    (∃ msg desc, HandleControl "POST" (BodyResult.parsed sku device capability)
        = HandlerAction.respondError 400 msg desc)
    ∧ ∀ s d c, HandleControl "POST" (BodyResult.parsed sku device capability)
        ≠ HandlerAction.callService s d c := by
  by_cases hsd : sku = "" ∨ device = ""
  · exact ⟨⟨"Bad request", "Missing required fields: sku and device",
      by simp [HandleControl, hsd]⟩, by simp [HandleControl, hsd]⟩
  · exact ⟨⟨"Bad request", "Missing required capability fields: type and instance",
      by simp [HandleControl, hsd, h]⟩, by simp [HandleControl, hsd, h]⟩

/-- Claim C4, witness at a concrete request (empty capability type). -/
theorem missing_capability_rejected_400_witness :
    (∃ msg desc, HandleControl "POST"
        (BodyResult.parsed "H6159" "14:29:A1:C2:7D:01" emptyTypeCapability)
        = HandlerAction.respondError 400 msg desc)
    ∧ ∀ s d c, HandleControl "POST"
        (BodyResult.parsed "H6159" "14:29:A1:C2:7D:01" emptyTypeCapability)
        ≠ HandlerAction.callService s d c :=
  missing_capability_rejected_400 "H6159" "14:29:A1:C2:7D:01" emptyTypeCapability
    (Or.inl rfl)

/-! ## C5 - packed-color decomposition -/

/-- Claim C5: in the color_setting branch, a numeric value `v`
(uint32-representable, as a packed 24-bit color is) is decomposed into
`r = (v>>16)&0xFF`, `g = (v>>8)&0xFF`, `b = v&0xFF` and handed to `SetColor`;
in particular `v = 0xFF0000 = 16711680` decomposes to `(255, 0, 0)`. -/
theorem color_setting_decomposition
    (lanSend : String → LanRequest → Option String) (ip inst : String)
    (v : Nat) (h : v < 4294967296) :
    lanAttemptErr lanSend
        { capType := "devices.capabilities.color_setting", capInstance := inst,
          value := JsonValue.num v } ip
      = lanSend ip (SetColor (Int.ofNat ((v >>> 16) &&& 255))
          (Int.ofNat ((v >>> 8) &&& 255)) (Int.ofNat (v &&& 255)))
    ∧ packedColor 16711680 = (255, 0, 0) := by
  refine ⟨?_, by decide⟩
  simp [lanAttemptErr, packedColor, Nat.mod_eq_of_lt h]

/-- Claim C5, witness at the packed color 0xFF0000. -/
theorem color_setting_decomposition_witness :
    (lanAttemptErr (fun _ _ => none)
        { capType := "devices.capabilities.color_setting",
          capInstance := "colorRgb", value := JsonValue.num 16711680 }
        "192.168.1.23"
      = (fun (_ : String) (_ : LanRequest) => (none : Option String)) "192.168.1.23"
          (SetColor (Int.ofNat ((16711680 >>> 16) &&& 255))
            (Int.ofNat ((16711680 >>> 8) &&& 255))
            (Int.ofNat (16711680 &&& 255))))
    ∧ packedColor 16711680 = (255, 0, 0) :=
  color_setting_decomposition (fun _ _ => none) "192.168.1.23" "colorRgb"
    16711680 (by decide)

/-! ## C6 - brightness clamping -/

/-- Claim C6: for every integer brightness value, `SetBrightness` encodes
`cmd="brightness"` carrying exactly the clamped value, and that value lies in
[1,100]. -/
theorem setBrightness_clamps (brightness : Int) :
    (SetBrightness brightness).cmd = "brightness"
    ∧ (SetBrightness brightness).data
        = LanData.intValue (clampValue brightness 1 100)
    ∧ 1 ≤ clampValue brightness 1 100 ∧ clampValue brightness 1 100 ≤ 100 := by
  refine ⟨rfl, rfl, ?_, ?_⟩ <;> (simp only [clampValue]; split_ifs <;> omega)

/-! ## C7 - color clamping and the colorTemInKelvin convention -/

/-- Claim C7: for every RGB triple, `SetColor` encodes `cmd="colorwc"` whose
payload carries each channel clamped independently into [0,255] and always
carries `colorTemInKelvin = 0`. -/
theorem setColor_clamps (r g b : Int) :
    (SetColor r g b).cmd = "colorwc"
    ∧ (SetColor r g b).data
        = LanData.colorwc (clampValue r 0 255) (clampValue g 0 255)
            (clampValue b 0 255) 0
    ∧ (0 ≤ clampValue r 0 255 ∧ clampValue r 0 255 ≤ 255)
    ∧ (0 ≤ clampValue g 0 255 ∧ clampValue g 0 255 ≤ 255)
    ∧ (0 ≤ clampValue b 0 255 ∧ clampValue b 0 255 ≤ 255) := by
  refine ⟨rfl, rfl, ⟨?_, ?_⟩, ⟨?_, ?_⟩, ⟨?_, ?_⟩⟩ <;>
    (simp only [clampValue]; split_ifs <;> omega)

/-! ## C8 - malformed datagrams are skipped -/

/-- Claim C8: a malformed (non-decodable) datagram arriving before the
deadline is skipped without aborting the scan: the discovery result equals
that of the same read sequence without the malformed datagram, so valid
datagrams received afterwards are still decoded and appended. -/
theorem malformed_datagram_skipped (timeout t : Nat)
    (xs ys : List (Nat × RecvEvent)) (ht : t < timeout) :
    DiscoverDevices none timeout (xs ++ (t, RecvEvent.packet none) :: ys)
      = DiscoverDevices none timeout (xs ++ ys) := by
  simp only [DiscoverDevices]
  rw [discoverLoop_skip timeout t _ (Or.inr rfl) ht xs 0 ys]

/-- Claim C8, witness: a malformed datagram at instant 1 followed by a valid
one at instant 3 yields the same result as the valid datagram alone. -/
theorem malformed_datagram_skipped_witness :
    DiscoverDevices none 10
        [(1, RecvEvent.packet none), (3, RecvEvent.packet (some sampleDevice))]
      = DiscoverDevices none 10 [(3, RecvEvent.packet (some sampleDevice))] :=
  malformed_datagram_skipped 10 1 [] [(3, RecvEvent.packet (some sampleDevice))]
    (by decide)

/-! ## C9 - zero-duration discovery -/

/-- Claim C9: a discovery call with a 0-duration timeout and no buffered
reply returns the empty sequence with a nil error (the loop guard
`time.Now().Before(deadline)` is false immediately). -/
theorem discovery_zero_timeout_empty :
    DiscoverDevices none 0 [] = Except.ok [] := rfl

/-! ## C10 - algebraic properties of clampValue -/

/-- Claim C10: for min <= max, `clampValue` lands in [min, max], is the
identity on values already in range, and is idempotent. -/
theorem clampValue_spec (value lo hi : Int) (h : lo ≤ hi) :
    (lo ≤ clampValue value lo hi ∧ clampValue value lo hi ≤ hi)
    ∧ (lo ≤ value → value ≤ hi → clampValue value lo hi = value)
    ∧ clampValue (clampValue value lo hi) lo hi = clampValue value lo hi := by
  simp only [clampValue]
  split_ifs <;> omega

/-- Claim C10, witness at value 150 and range [0, 100]. -/
theorem clampValue_spec_witness :
    ((0 : Int) ≤ clampValue 150 0 100 ∧ clampValue 150 0 100 ≤ 100)
    ∧ ((0 : Int) ≤ 150 → (150 : Int) ≤ 100 → clampValue 150 0 100 = 150)
    ∧ clampValue (clampValue 150 0 100) 0 100 = clampValue 150 0 100 :=
  clampValue_spec 150 0 100 (by decide)

end GoVee
